import Mathlib

/-!
# Verification of the aviation-weather normalization and classification layer

This file gives a shallow embedding, in Lean 4, of the logic of the
`aviation-weather-mcp` repository: the visibility/cloud/intensity value
normalizers, the flight-category classifier, the METAR record mapper,
the raw-text segmenter, the station-info lookup, and the raw-METAR
decoder.  Each definition is translated from the TypeScript source
(`src/services/aviationWeather.ts` and the tool modules); JavaScript
numbers are modelled as `Option ℚ` with `none` standing for `NaN`
(finite decimal values are exact as rationals; binary floating-point
rounding, `Infinity`, exponent notation and hexadecimal numeric strings
are outside the model, none of which the verified properties touch),
and JavaScript `undefined` is an outer `Option` layer.  Truthiness of
values (`0`, `""`, `NaN` and `undefined` are falsy) is modelled
explicitly where the source relies on it.
-/

set_option autoImplicit false

namespace AvWx

/-- A JavaScript number: `none` is `NaN`, `some q` a finite value. -/
abbrev JSNumber := Option ℚ

/-- A loosely-typed JavaScript scalar as it occurs in upstream records:
`undefined` (also covering `null`, which every guard here treats
identically), a number, or a string. -/
inductive JSVal where
  | undef : JSVal
  | num : JSNumber → JSVal
  | str : String → JSVal
  deriving DecidableEq, Repr

/-- JavaScript truthiness of a scalar: `undefined`, `NaN`, `0` and `""`
are falsy, everything else truthy. -/
def jsTruthy : JSVal → Bool
  | .undef => false
  | .num none => false
  | .num (some q) => q != 0
  | .str s => s != ""

/-- Digits-to-value accumulator for decimal digit runs. -/
def digitsVal (ds : List Char) : ℕ :=
  ds.foldl (fun acc c => 10 * acc + (c.toNat - '0'.toNat)) 0

/-- The characters that JavaScript `parseFloat`, `parseInt` and `trim`
skip as leading whitespace (ASCII portion). -/
def isJsWs (c : Char) : Bool :=
  c = ' ' || c = '\t' || c = '\n' || c = '\r' || c = '\x0b' || c = '\x0c'

/-- Unsigned part of `parseFloat`: a digit run, optionally followed by a
decimal point and a further digit run, or a decimal point followed by a
non-empty digit run; `none` when no digit can be consumed (`NaN`).
Trailing non-numeric characters are ignored, as in JavaScript.  The
value `i.f` is the rational `(i·10^k + f) / 10^k`. -/
def parseFloatUnsigned (cs : List Char) : Option ℚ :=
  let intPart := cs.takeWhile Char.isDigit
  let rest := cs.dropWhile Char.isDigit
  match intPart, rest with
  | [], '.' :: rest' =>
      let frac := rest'.takeWhile Char.isDigit
      if frac.isEmpty then none
      else some (mkRat (digitsVal frac) (10 ^ frac.length))
  | [], _ => none
  | ds, '.' :: rest' =>
      let frac := rest'.takeWhile Char.isDigit
      some (mkRat (digitsVal ds * 10 ^ frac.length + digitsVal frac) (10 ^ frac.length))
  | ds, _ => some (mkRat (digitsVal ds) 1)

/-- JavaScript `parseFloat` on a string: skip leading whitespace, an
optional sign, then the longest decimal-number prefix; `none` is `NaN`. -/
def jsParseFloat (s : String) : Option ℚ :=
  match s.toList.dropWhile isJsWs with
  | '-' :: cs => (parseFloatUnsigned cs).map (fun q => -q)
  | '+' :: cs => parseFloatUnsigned cs
  | cs => parseFloatUnsigned cs

/-- Models `s.startsWith(p)`. -/
def strStartsWith (s p : String) : Bool :=
  p.toList.isPrefixOf s.toList

/-- Models `s.endsWith(p)`. -/
def strEndsWith (s p : String) : Bool :=
  p.toList.reverse.isPrefixOf s.toList.reverse

/-- ASCII upper-casing of one character (the portion of
`toUpperCase` the inputs here exercise). -/
def jsUpChar (c : Char) : Char :=
  if 'a' ≤ c && c ≤ 'z' then Char.ofNat (c.toNat - 32) else c

/-- Models `s.toUpperCase()` (ASCII). -/
def jsToUpper (s : String) : String :=
  ⟨s.toList.map jsUpChar⟩

/-- Models `s.trim()` — strip leading and trailing whitespace. -/
def jsTrim (s : String) : String :=
  ⟨(((s.toList.dropWhile isJsWs).reverse).dropWhile isJsWs).reverse⟩

/-- Split a character list at every occurrence of `sep` (the separator
characters are dropped; empty segments are kept, as JavaScript
`split` does with a string separator). -/
def splitCharList (sep : Char) : List Char → List (List Char)
  | [] => [[]]
  | c :: cs =>
    match splitCharList sep cs with
    | [] => [[]]
    | h :: t => if c = sep then [] :: h :: t else (c :: h) :: t

/-- Models `s.split(sep)` for a one-character separator. -/
def jsSplitChar (sep : Char) (s : String) : List String :=
  (splitCharList sep s.toList).map (fun l => ⟨l⟩)

/-- Split a character list at every character satisfying `p`. -/
def splitPredList (p : Char → Bool) : List Char → List (List Char)
  | [] => [[]]
  | c :: cs =>
    match splitPredList p cs with
    | [] => [[]]
    | h :: t => if p c then [] :: h :: t else (c :: h) :: t

/-- Models `l.join(sep)`. -/
def joinSep (sep : String) : List String → String
  | [] => ""
  | [x] => x
  | x :: y :: xs => x ++ sep ++ joinSep sep (y :: xs)

/-- JavaScript `parseInt` (radix 10) on a string: skip leading
whitespace, an optional sign, then the longest digit prefix; `none` is
`NaN`. -/
def jsParseInt (s : String) : Option ℤ :=
  let go : List Char → Option ℤ := fun cs =>
    let ds := cs.takeWhile Char.isDigit
    if ds.isEmpty then none else some (digitsVal ds : ℤ)
  match s.toList.dropWhile isJsWs with
  | '-' :: cs => (go cs).map (fun n => -n)
  | '+' :: cs => go cs
  | cs => go cs

/-- Truncation toward zero, the rounding `parseInt` applies when handed
a (finite, plainly-formatted) number. -/
def jsTrunc (q : ℚ) : ℤ :=
  if 0 ≤ q then ⌊q⌋ else -⌊-q⌋

/-- Models `parseFloat` applied to a loosely-typed scalar (the argument is
coerced to a string first; for a finite number that round-trips). -/
def jsParseFloatVal : JSVal → Option ℚ
  | .undef => none
  | .num x => x
  | .str s => jsParseFloat s

/-- Models `parseInt` applied to a loosely-typed scalar. -/
def jsParseIntVal : JSVal → Option ℤ
  | .undef => none
  | .num none => none
  | .num (some q) => some (jsTrunc q)
  | .str s => jsParseInt s

/-- The `x || undefined` normalization the mapper applies after numeric
coercion: `NaN` and `0` collapse to `undefined`. -/
def orUndef : Option ℚ → Option ℚ
  | none => none
  | some q => if q = 0 then none else some q

/-- The `a || b` fallback on two optional strings with a final string
default, as in the fallback chain for the cloud cover: first truthy
(present and non-empty) operand wins. -/
def jsOrStr (a b : Option String) (d : String) : String :=
  match a with
  | some s => if s ≠ "" then s else match b with
      | some t => if t ≠ "" then t else d
      | none => d
  | none => match b with
      | some t => if t ≠ "" then t else d
      | none => d

/-! ## Flight category -/

/-- The four flight categories. -/
inductive FlightCategory where
  | VFR | MVFR | IFR | LIFR
  deriving DecidableEq, Repr

/-- Severity rank: `VFR` (best) `= 0` up to `LIFR` (worst) `= 3`. -/
def catRank : FlightCategory → ℕ
  | .VFR => 0
  | .MVFR => 1
  | .IFR => 2
  | .LIFR => 3

/-- Models `o !== undefined && o < t`, the guard used by the standalone
classifier in the analysis-tools module. -/
def optDefLt (o : Option ℚ) (t : ℚ) : Bool :=
  match o with
  | some x => decide (x < t)
  | none => false

/-- Models `determineFlightCategory(ceiling?, visibility?)` from the
analysis-tools module: the pure classifier over an optional ceiling
(feet) and an optional visibility (statute miles). -/
def determineFlightCategory (ceiling visibility : Option ℚ) : FlightCategory :=
  if optDefLt ceiling 500 || optDefLt visibility 1 then .LIFR
  else if optDefLt ceiling 1000 || optDefLt visibility 3 then .IFR
  else if optDefLt ceiling 3000 || optDefLt visibility 5 then .MVFR
  else .VFR

/-! ## String helpers mirroring the JavaScript methods used -/

/-- Substring containment on character lists (`String.includes`). -/
def listContainsSub (pat : List Char) : List Char → Bool
  | [] => pat.isEmpty
  | c :: cs => pat.isPrefixOf (c :: cs) || listContainsSub pat cs

/-- Models `s.includes(pat)` — substring containment. -/
def jsIncludes (s pat : String) : Bool :=
  listContainsSub pat.toList s.toList

/-- Replace the first occurrence of `pat` (helper on lists). -/
def listReplaceFirst (pat repl : List Char) : List Char → List Char
  | [] => if pat.isEmpty then repl else []
  | c :: cs =>
    if pat.isPrefixOf (c :: cs) then repl ++ (c :: cs).drop pat.length
    else c :: listReplaceFirst pat repl cs

/-- Models `s.replace(pat, repl)` with a string pattern: JavaScript replaces
only the first occurrence. -/
def jsReplaceFirst (s pat repl : String) : String :=
  ⟨listReplaceFirst pat.toList repl.toList s.toList⟩

/-- Models `s.substring(a, b)` (within-range use only, as in the source). -/
def jsSubstring (s : String) (a b : ℕ) : String :=
  ⟨(s.toList.drop a).take (b - a)⟩

/-! ## Visibility normalization (`parseVisibility`) -/

/-- Models `AviationWeatherService.parseVisibility`: falsy input (missing, `0`,
`NaN`, `""`) gives `undefined`; a string ending in `+` or of the
`P…SM` shape is stripped and fed to `parseFloat` (note: the result is
returned as-is, so it can be `NaN` or `0`); any other value goes
through `parseFloat(value) || undefined`.  The result is
`number | undefined`: outer `none` is `undefined`, `some none` is
`NaN`. -/
def parseVisibility : JSVal → Option JSNumber
  | .undef => none
  | .num none => none
  | .num (some q) => if q = 0 then none else some (some q)
  | .str s =>
    if s = "" then none
    else if strEndsWith s "+" then
      some (jsParseFloat (jsReplaceFirst s "+" ""))
    else if strStartsWith s "P" && strEndsWith s "SM" then
      some (jsParseFloat (jsReplaceFirst (jsReplaceFirst s "P" "") "SM" ""))
    else match jsParseFloat s with
      | none => none
      | some q => if q = 0 then none else some (some q)

/-! ## Cloud layers (`parseClouds`) -/

/-- One raw cloud entry of an upstream record: an optional cover code
under `cover` or `skyCover`, and a loosely-typed base value. -/
structure CloudRecord where
  cover : Option String
  skyCover : Option String
  base : JSVal
  deriving DecidableEq, Repr

/-- One mapped cloud layer: the cover string as produced by the mapper
(the source casts it to its six-value union without checking), and the
base altitude (`none` = `undefined`, `some none` = `NaN`). -/
structure CloudLayer where
  type : String
  altitude : Option JSNumber
  deriving DecidableEq, Repr

/-- Models `AviationWeatherService.parseClouds`: per entry,
`cover || skyCover || 'CLR'` and
`base ? parseInt(base) : undefined`. -/
def parseClouds (clouds : List CloudRecord) : List CloudLayer :=
  clouds.map (fun cloud =>
    { type := jsOrStr cloud.cover cloud.skyCover "CLR"
      altitude := if jsTruthy cloud.base then some ((jsParseIntVal cloud.base).map (fun n => (n : ℚ))) else none })

/-! ## The service-side classifier and METAR mapper -/

/-- Truthiness of the altitude of a cloud layer (`cloud.altitude` guard):
`undefined`, `NaN` and `0` are falsy. -/
def altTruthy : Option JSNumber → Bool
  | some (some a) => a != 0
  | _ => false

/-- The ceiling scan of `AviationWeatherService.determineFlightCategory`:
the lowest truthy altitude among `BKN`/`OVC` layers. -/
def ceilingOf (clouds : List CloudLayer) : Option ℚ :=
  clouds.foldl (fun ceiling cloud =>
    if (cloud.type == "BKN" || cloud.type == "OVC") && altTruthy cloud.altitude then
      match cloud.altitude, ceiling with
      | some (some a), none => some a
      | some (some a), some c => if a < c then some a else some c
      | _, _ => ceiling
    else ceiling) none

/-- Models `ceiling && ceiling < t` — truthiness guard on the reduced ceiling. -/
def ceilTruthyLt (c : Option ℚ) (t : ℚ) : Bool :=
  match c with
  | some x => x != 0 && decide (x < t)
  | none => false

/-- Models `visibility && visibility < t` — truthiness guard on the parsed
visibility (`undefined`, `NaN` and `0` are falsy). -/
def visTruthyLt (v : Option JSNumber) (t : ℚ) : Bool :=
  match v with
  | some (some q) => q != 0 && decide (q < t)
  | _ => false

/-- An upstream METAR record, restricted to the fields
`parseMetarResponse` reads.  String-typed pass-through fields are
`Option String`; numerically coerced fields are loosely typed. -/
structure MetarRecord where
  rawOb : Option String := none
  raw_text : Option String := none
  icaoId : Option String := none
  station : Option String := none
  obsTime : Option String := none
  observation_time : Option String := none
  temp : JSVal := .undef
  dewp : JSVal := .undef
  wdir : JSVal := .undef
  wspd : JSVal := .undef
  wgst : JSVal := .undef
  visib : JSVal := .undef
  altim : JSVal := .undef
  clouds : Option (List CloudRecord) := none
  skyCondition : Option (List CloudRecord) := none
  wxString : Option String := none
  deriving DecidableEq, Repr

/-- Models `parseInt(x) || undefined` over a loosely-typed scalar. -/
def parseIntOrUndef (x : JSVal) : Option ℤ :=
  match jsParseIntVal x with
  | none => none
  | some n => if n = 0 then none else some n

/-- Models `AviationWeatherService.determineFlightCategory(data)`: recomputes
visibility from `data.visib` and the cloud list from `data.clouds`
(note: without the `skyCondition` fallback the mapper itself uses),
reduces the ceiling, then applies the threshold cascade with truthiness
guards. -/
def svcDetermineFlightCategory (data : MetarRecord) : FlightCategory :=
  let visibility := parseVisibility data.visib
  let clouds := parseClouds (data.clouds.getD [])
  let ceiling := ceilingOf clouds
  if ceilTruthyLt ceiling 500 || visTruthyLt visibility 1 then .LIFR
  else if ceilTruthyLt ceiling 1000 || visTruthyLt visibility 3 then .IFR
  else if ceilTruthyLt ceiling 3000 || visTruthyLt visibility 5 then .MVFR
  else .VFR

/-- The canonical station observation the mapper produces. -/
structure MetarData where
  raw : String
  station : String
  observationTime : String
  temperature : Option ℚ
  dewpoint : Option ℚ
  windDirection : Option ℤ
  windSpeed : Option ℤ
  windGust : Option ℤ
  visibility : Option JSNumber
  altimeter : Option ℚ
  clouds : List CloudLayer
  weather : List String
  flightCategory : FlightCategory
  deriving DecidableEq, Repr

/-- Models `AviationWeatherService.parseMetarResponse`. -/
def parseMetarResponse (data : MetarRecord) : MetarData :=
  { raw := jsOrStr data.rawOb data.raw_text ""
    station := jsOrStr data.icaoId data.station ""
    observationTime := jsOrStr data.obsTime data.observation_time ""
    temperature := orUndef (jsParseFloatVal data.temp)
    dewpoint := orUndef (jsParseFloatVal data.dewp)
    windDirection := parseIntOrUndef data.wdir
    windSpeed := parseIntOrUndef data.wspd
    windGust := parseIntOrUndef data.wgst
    visibility := parseVisibility data.visib
    altimeter := orUndef (jsParseFloatVal data.altim)
    clouds := parseClouds ((data.clouds).getD ((data.skyCondition).getD []))
    weather := match data.wxString with
      | some w => if w ≠ "" then [w] else []
      | none => []
    flightCategory := svcDetermineFlightCategory data }

/-! ## Turbulence and icing intensity -/

/-- Turbulence intensities. -/
inductive TurbIntensity where
  | LIGHT | MODERATE | SEVERE | EXTREME
  deriving DecidableEq, Repr

/-- Icing intensities. -/
inductive IcingIntensity where
  | TRACE | LIGHT | MODERATE | SEVERE
  deriving DecidableEq, Repr

/-- Models `AviationWeatherService.parseTurbulenceIntensity`. -/
def parseTurbulenceIntensity (value : String) : TurbIntensity :=
  let upper := jsToUpper value
  if jsIncludes upper "EXTREME" then .EXTREME
  else if jsIncludes upper "SEVERE" then .SEVERE
  else if jsIncludes upper "MODERATE" then .MODERATE
  else .LIGHT

/-- Models `AviationWeatherService.parseIcingIntensity`: note the checked
tokens are `SEVERE`, `MODERATE`, `TRACE` in that order, with `LIGHT`
as the unchecked default. -/
def parseIcingIntensity (value : String) : IcingIntensity :=
  let upper := jsToUpper value
  if jsIncludes upper "SEVERE" then .SEVERE
  else if jsIncludes upper "MODERATE" then .MODERATE
  else if jsIncludes upper "TRACE" then .TRACE
  else .LIGHT

/-! ## Raw-text segmentation (`getMetarByBounds`, text branch) -/

/-- A raw segmented observation: just the trimmed line and the station
token (the source builds a minimal record with only these fields). -/
structure RawMetar where
  raw : String
  station : String
  deriving DecidableEq, Repr

/-- The `/^[A-Z]{4}$/` test. -/
def isFourUpper (s : String) : Bool :=
  s.length = 4 && s.toList.all (fun c => 'A' ≤ c && c ≤ 'Z')

/-- The single-line segmentation loop of
`AviationWeatherService.getMetarByBounds`: split at newlines, keep lines
with non-empty trim, split each trimmed line on single spaces, and emit
a record when the leading part matches `/^[A-Z]{4}$/`. -/
def segmentRawObservationText (data : String) : List RawMetar :=
  let lines := (jsSplitChar '\n' data).filter (fun line => jsTrim line != "")
  lines.foldl (fun results line =>
    if jsTrim line != "" then
      let parts := jsSplitChar ' ' (jsTrim line)
      if isFourUpper (parts.headD "") then
        results ++ [{ raw := jsTrim line, station := parts.headD "" }]
      else results
    else results) []

/-! ## Station lookup (`getStationInfo`, post-fetch logic) -/

/-- An upstream station record, restricted to the fields read. -/
structure StationRecord where
  icaoId : Option String := none
  name : Option String := none
  lat : JSVal := .undef
  lon : JSVal := .undef
  elev : JSVal := .undef
  deriving DecidableEq, Repr

/-- The station information returned.  For `elevation` the inner
`none` is `NaN` (a truthy `elev` whose integer coercion fails). -/
structure StationInfo where
  icao : String
  name : String
  latitude : Option ℚ
  longitude : Option ℚ
  elevation : Option (Option ℤ)
  deriving DecidableEq, Repr

/-- A structured error as thrown by the service. -/
structure WeatherError where
  code : String
  message : String
  deriving DecidableEq, Repr

/-- Models `station.trim().toUpperCase()`. -/
def jsCleanStation (station : String) : String :=
  jsToUpper (jsTrim station)

/-- The info extracted from the first record of the reply. -/
def stationInfoOf (sd : StationRecord) (cleanStation : String) : StationInfo :=
  { icao := jsOrStr sd.icaoId none cleanStation
    name := jsOrStr sd.name none cleanStation
    latitude := orUndef (jsParseFloatVal sd.lat)
    longitude := orUndef (jsParseFloatVal sd.lon)
    elevation := if jsTruthy sd.elev then some (jsParseIntVal sd.elev) else none }

/-- Models `AviationWeatherService.getStationInfo`, after the fetch: throw
`STATION_NOT_FOUND` when the reply sequence is empty, otherwise use the
first record (no check that it matches the requested station). -/
def getStationInfo (data : List StationRecord) (station : String) : Except WeatherError StationInfo :=
  let cleanStation := jsCleanStation station
  match data with
  | [] => .error { code := "STATION_NOT_FOUND",
                   message := "Station " ++ cleanStation ++ " not found" }
  | sd :: _ => .ok (stationInfoOf sd cleanStation)

/-! ## The raw-METAR decoder (`decodeMetar` in the analysis tools) -/

/-- Models `raw.trim().split(/\s+/)`: the empty string yields `[""]`,
otherwise the whitespace-run-separated tokens (the input being trimmed,
no empty tokens arise). -/
def jsSplitWs (s : String) : List String :=
  if s = "" then [""]
  else ((splitPredList isJsWs s.toList).map (fun l => (⟨l⟩ : String))).filter (fun t => t != "")

/-- Decoder stage 1, report type: consume a literal `METAR`/`SPECI`. -/
def typeStage : List String → (String × List String)
  | [] => ("", [])
  | part :: rest =>
    if part = "METAR" || part = "SPECI" then
      ("Type: " ++ (if part = "SPECI" then "Special observation" else "Routine observation") ++ "\n",
       rest)
    else ("", part :: rest)

/-- Decoder stage 2, station: consume a `/^[A-Z]{4}$/` token (the
leading `part ≠ ""` conjunct models the `parts[index] &&` guard). -/
def stationStage : List String → (String × List String)
  | [] => ("", [])
  | part :: rest =>
    if part != "" && isFourUpper part then ("Station: " ++ part ++ "\n", rest)
    else ("", part :: rest)

/-- The unanchored `/\d{6}Z/` test at the current position. -/
def sixZHere : List Char → Bool
  | d1 :: d2 :: d3 :: d4 :: d5 :: d6 :: 'Z' :: _ =>
    d1.isDigit && d2.isDigit && d3.isDigit && d4.isDigit && d5.isDigit && d6.isDigit
  | _ => false

/-- The unanchored `/\d{6}Z/` test (searched at every position). -/
def hasSixZ : List Char → Bool
  | [] => false
  | c :: cs => sixZHere (c :: cs) || hasSixZ cs

/-- Decoder stage 3, observation time: on an (unanchored) `\d{6}Z`
match, render fixed character slices of the token. -/
def timeStage : List String → (String × List String)
  | [] => ("", [])
  | part :: rest =>
    if part != "" && hasSixZ part.toList then
      ("Observation Time: Day " ++ jsSubstring part 0 2 ++ ", " ++
        jsSubstring part 2 4 ++ ":" ++ jsSubstring part 4 6 ++ " UTC\n", rest)
    else ("", part :: rest)

/-- The unanchored `/\d{3}\d{2}(G\d{2})?KT/` test at the current
position. -/
def windHere : List Char → Bool
  | d1 :: d2 :: d3 :: d4 :: d5 :: rest =>
    d1.isDigit && d2.isDigit && d3.isDigit && d4.isDigit && d5.isDigit &&
    (match rest with
     | 'K' :: 'T' :: _ => true
     | 'G' :: g1 :: g2 :: 'K' :: 'T' :: _ => g1.isDigit && g2.isDigit
     | _ => false)
  | _ => false

/-- The unanchored `/\d{3}\d{2}(G\d{2})?KT/` test. -/
def hasWind : List Char → Bool
  | [] => false
  | c :: cs => windHere (c :: cs) || hasWind cs

/-- First match of `/G(\d{2})/`: the two captured digit characters. -/
def findGust : List Char → Option (Char × Char)
  | 'G' :: g1 :: g2 :: r =>
    if g1.isDigit && g2.isDigit then some (g1, g2) else findGust (g1 :: g2 :: r)
  | _ :: r => findGust r
  | [] => none

/-- Models `${parseInt(s)}` — the decimal rendering, `"NaN"` on failure. -/
def intDisplay (s : String) : String :=
  match jsParseInt s with
  | some n => toString n
  | none => "NaN"

/-- Decoder stage 4, wind: direction and speed are fixed character
slices of the token; the `VRB` comparison is retained from the source
even though the numeric pattern can never produce it. -/
def windStage : List String → (String × List String)
  | [] => ("", [])
  | part :: rest =>
    if part != "" && hasWind part.toList then
      let dir := jsSubstring part 0 3
      let speed := jsSubstring part 3 5
      let g := match findGust part.toList with
        | some (g1, g2) => " gusting to " ++ intDisplay ⟨[g1, g2]⟩ ++ " knots"
        | none => ""
      ("Wind: " ++ (if dir = "VRB" then "Variable" else dir ++ "°") ++
        " at " ++ intDisplay speed ++ " knots" ++ g ++ "\n", rest)
    else ("", part :: rest)

/-- The anchored `/^\d+SM$/` test. -/
def isVisSM (s : String) : Bool :=
  let cs := s.toList
  let ds := cs.takeWhile Char.isDigit
  !ds.isEmpty && cs.drop ds.length = ['S', 'M']

/-- The anchored `/^M?\d+\/\d+SM$/` test. -/
def isFracSM (s : String) : Bool :=
  let cs := s.toList
  let cs1 := match cs with
    | 'M' :: r => r
    | r => r
  let ds1 := cs1.takeWhile Char.isDigit
  match cs1.drop ds1.length with
  | '/' :: rest =>
    let ds2 := rest.takeWhile Char.isDigit
    !ds1.isEmpty && !ds2.isEmpty && rest.drop ds2.length = ['S', 'M']
  | _ => false

/-- The visibility line for a recognized token. -/
def visLine (part : String) : String :=
  if part = "CAVOK" then
    "Visibility: Ceiling and Visibility OK (>10SM, no clouds below 5000ft)\n"
  else "Visibility: " ++ part ++ "\n"

/-- Decoder stage 5, visibility: scan forward, consuming tokens, until
a visibility-shaped token (rendered, then stop) or the end of input. -/
def visStage : List String → (String × List String)
  | [] => ("", [])
  | part :: rest =>
    if isVisSM part || isFracSM part || part = "CAVOK" then (visLine part, rest)
    else visStage rest

/-- The anchored `/^(\+|-)?(VC)?[A-Z]{2,6}$/` test: after an optional
sign, an all-uppercase body of length 2–6, or 4–8 when it starts with
`VC` (the optional group absorbing two of the letters). -/
def isWxTok (s : String) : Bool :=
  let body := match s.toList with
    | '+' :: r => r
    | '-' :: r => r
    | r => r
  body.all (fun c => 'A' ≤ c && c ≤ 'Z') &&
    (decide (2 ≤ body.length) &&
      (decide (body.length ≤ 6) ||
        (decide (body.length ≤ 8) && ['V', 'C'].isPrefixOf body)))

/-- Models `part.replace(/^(\+|-)?VC?/, "")`: strip a leading optional sign
followed by `V` and an optional `C`; unchanged when `V` is absent (the
sign alone never matches because the `V` is mandatory). -/
def stripWxPre (s : String) : String :=
  match s.toList with
  | '+' :: 'V' :: 'C' :: r => ⟨r⟩
  | '+' :: 'V' :: r => ⟨r⟩
  | '-' :: 'V' :: 'C' :: r => ⟨r⟩
  | '-' :: 'V' :: r => ⟨r⟩
  | 'V' :: 'C' :: r => ⟨r⟩
  | 'V' :: r => ⟨r⟩
  | _ => s

/-- The decoder table of weather-phenomenon mnemonics, in insertion
order. -/
def weatherCodes : List (String × String) :=
  [("RA", "Rain"), ("SN", "Snow"), ("BR", "Mist"), ("FG", "Fog"),
   ("HZ", "Haze"), ("TS", "Thunderstorm"), ("SH", "Showers"),
   ("FZ", "Freezing"), ("DZ", "Drizzle")]

/-- The description assembled for one weather token: intensity and
vicinity markers, then every table mnemonic contained in the stripped
code, concatenated in table order. -/
def wxDescription (part : String) : String :=
  let d0 := (if strStartsWith part "+" then "Heavy " else "") ++
    (if strStartsWith part "-" then "Light " else "") ++
    (if jsIncludes part "VC" then "In vicinity " else "")
  let code := stripWxPre part
  weatherCodes.foldl (fun acc kv =>
    if jsIncludes code kv.1 then acc ++ kv.2 ++ " " else acc) d0

/-- Decoder stage 6, weather: consume weather-shaped tokens, collecting
the trimmed non-empty descriptions, and stop at the first
non-matching token. -/
def weatherStage : List String → (List String × List String)
  | [] => ([], [])
  | part :: rest =>
    if isWxTok part then
      let step := weatherStage rest
      let d := wxDescription part
      (if d != "" then jsTrim d :: step.1 else step.1, step.2)
    else ([], part :: rest)

/-- The anchored `/^(CLR|SKC|FEW|SCT|BKN|OVC)\d{3}(CB|TCU)?$/` test. -/
def isCloudTok (s : String) : Bool :=
  match s.toList with
  | c1 :: c2 :: c3 :: d1 :: d2 :: d3 :: rest =>
    ["CLR", "SKC", "FEW", "SCT", "BKN", "OVC"].contains ⟨[c1, c2, c3]⟩ &&
      d1.isDigit && d2.isDigit && d3.isDigit &&
      (rest = [] || rest = ['C', 'B'] || rest = ['T', 'C', 'U'])
  | _ => false

/-- The decoder prose table for cover codes (the catch-all mirrors a
JavaScript missing-key lookup and is unreachable from `isCloudTok`). -/
def cloudTypeName (t : String) : String :=
  if t = "CLR" then "Clear"
  else if t = "SKC" then "Sky Clear"
  else if t = "FEW" then "Few"
  else if t = "SCT" then "Scattered"
  else if t = "BKN" then "Broken"
  else if t = "OVC" then "Overcast"
  else "undefined"

/-- The prose for one height-carrying cloud token. -/
def cloudEntry (part : String) : String :=
  let t := jsSubstring part 0 3
  let height := digitsVal ((part.toList.drop 3).take 3) * 100
  let cb := if jsIncludes part "CB" then " Cumulonimbus"
    else if jsIncludes part "TCU" then " Towering Cumulus" else ""
  cloudTypeName t ++ " at " ++ toString height ++ " ft" ++ cb

/-- Decoder stage 7, clouds: consume cloud-shaped tokens (with height)
or bare `CLR`/`SKC` tokens, and stop at the first non-matching one. -/
def cloudsStage : List String → (List String × List String)
  | [] => ([], [])
  | part :: rest =>
    if isCloudTok part then
      let step := cloudsStage rest
      (cloudEntry part :: step.1, step.2)
    else if part = "CLR" || part = "SKC" then
      let step := cloudsStage rest
      ("Clear skies" :: step.1, step.2)
    else ([], part :: rest)

/-- Consume `M?\d{2}` from a character list, returning the remainder. -/
def twoDigitsM : List Char → Option (List Char)
  | 'M' :: d1 :: d2 :: r => if d1.isDigit && d2.isDigit then some r else none
  | d1 :: d2 :: r => if d1.isDigit && d2.isDigit then some r else none
  | _ => none

/-- The anchored `/^M?\d{2}\/M?\d{2}$/` test. -/
def isTempTok (s : String) : Bool :=
  match twoDigitsM s.toList with
  | some ('/' :: r2) =>
    match twoDigitsM r2 with
    | some [] => true
    | _ => false
  | _ => false

/-- Decoder stage 8, temperature/dewpoint: split on `/` and replace the
first `M` of each side by `-`. -/
def tempStage : List String → (String × List String)
  | [] => ("", [])
  | part :: rest =>
    if isTempTok part then
      let temps := jsSplitChar '/' part
      ("Temperature: " ++ jsReplaceFirst (temps.getD 0 "") "M" "-" ++
        "°C, Dewpoint: " ++ jsReplaceFirst (temps.getD 1 "") "M" "-" ++ "°C\n", rest)
    else ("", part :: rest)

/-- The anchored `/^A\d{4}$/` (resp. `/^Q\d{4}$/`) test. -/
def isAQTok (lead : Char) (s : String) : Bool :=
  match s.toList with
  | c :: d1 :: d2 :: d3 :: d4 :: [] =>
    c = lead && d1.isDigit && d2.isDigit && d3.isDigit && d4.isDigit
  | _ => false

/-- Two-digit zero-padded rendering (the fractional part of
`toFixed(2)`). -/
def pad2 (n : ℕ) : String :=
  if n < 10 then "0" ++ toString n else toString n

/-- Decoder stage 9, altimeter: `ANNNN` renders `NNNN/100` to two
decimals in inHg, `QNNNN` renders the integer in hPa. -/
def altStage : List String → (String × List String)
  | [] => ("", [])
  | part :: rest =>
    if isAQTok 'A' part then
      let n := digitsVal (part.toList.drop 1)
      ("Altimeter: " ++ toString (n / 100) ++ "." ++ pad2 (n % 100) ++ " inHg\n", rest)
    else if isAQTok 'Q' part then
      ("QNH: " ++ toString (digitsVal (part.toList.drop 1)) ++ " hPa\n", rest)
    else ("", part :: rest)

/-- Models `parts.indexOf("RMK")` followed by the space-join of everything
after it (over the full token list, independent of the scan cursor). -/
def remarksOf : List String → Option String
  | [] => none
  | p :: rest => if p = "RMK" then some (joinSep " " rest) else remarksOf rest

/-- Everything `decodeMetar` appends after its fixed header, stage by
stage in source order. -/
def decodeMetarBody (raw : String) : String :=
  let parts := jsSplitWs (jsTrim raw)
  let s1 := typeStage parts
  let s2 := stationStage s1.2
  let s3 := timeStage s2.2
  let s4 := windStage s3.2
  let s5 := visStage s4.2
  let s6 := weatherStage s5.2
  let lwx := if s6.1 != [] then "Weather: " ++ joinSep ", " s6.1 ++ "\n" else ""
  let s7 := cloudsStage s6.2
  let lcl := if s7.1 != [] then "Clouds: " ++ joinSep ", " s7.1 ++ "\n" else ""
  let s8 := tempStage s7.2
  let s9 := altStage s8.2
  let lrmk := match remarksOf parts with
    | some r => "Remarks: " ++ r ++ "\n"
    | none => ""
  s1.1 ++ s2.1 ++ s3.1 ++ s4.1 ++ s5.1 ++ lwx ++ lcl ++ s8.1 ++ s9.1 ++ lrmk

/-- Models `decodeMetar` from the analysis-tools module: a total function from
the raw string to the multi-line prose (the source contains no throw
and no failure path). -/
def decodeMetar (raw : String) : String :=
  "Decoded METAR:\n\n" ++ decodeMetarBody raw

/-! ## Inputs and auxiliary definitions used by the theorems -/

/-- A record carrying its cloud list only under the legacy
`skyCondition` key, with a broken layer at 200 ft. -/
def skyConditionOnlyRecord : MetarRecord :=
  { skyCondition := some [{ cover := some "OVC", skyCover := none, base := .str "200" }] }

/-- A reply holding one record for a different station. -/
def klasOnlyRecord : StationRecord := { icaoId := some "KLAS" }

/-- The per-entry transform `parseClouds` maps over its input (named
here so the mapping can be stated entry-wise). -/
def cloudLayerOfRecord (cloud : CloudRecord) : CloudLayer :=
  { type := jsOrStr cloud.cover cloud.skyCover "CLR"
    altitude := if jsTruthy cloud.base then
        some ((jsParseIntVal cloud.base).map (fun n => (n : ℚ)))
      else none }

/-- Modelled from the claim wording only (for the counterexample): the
first whitespace-delimited token of a trimmed line. -/
def firstWhitespaceToken (line : String) : String :=
  (((splitPredList isJsWs (jsTrim line).toList).map
      (fun l => (⟨l⟩ : String))).filter (fun t => t != "")).headD ""

/-- The record one line contributes under the amended (space-delimited)
per-line reading. -/
def lineRecord (line : String) : Option RawMetar :=
  if jsTrim line != "" && isFourUpper ((jsSplitChar ' ' (jsTrim line)).headD "") then
    some { raw := jsTrim line, station := (jsSplitChar ' ' (jsTrim line)).headD "" }
  else none


/-! ## Severity decomposition of the classifier -/

/-- Severity contributed by the ceiling alone: `3` below 500 ft, `2`
below 1000 ft, `1` below 3000 ft, else `0` (also when undefined). -/
def badCeil : Option ℚ → ℕ
  | none => 0
  | some x => if x < 500 then 3 else if x < 1000 then 2 else if x < 3000 then 1 else 0

/-- Severity contributed by the visibility alone: `3` below 1 SM, `2`
below 3 SM, `1` below 5 SM, else `0` (also when undefined). -/
def badVis : Option ℚ → ℕ
  | none => 0
  | some y => if y < 1 then 3 else if y < 3 then 2 else if y < 5 then 1 else 0

theorem badCeil_le_three (c : Option ℚ) : badCeil c ≤ 3 := by
  cases c with
  | none => simp [badCeil]
  | some x => simp only [badCeil]; split_ifs <;> omega

theorem badVis_le_three (v : Option ℚ) : badVis v ≤ 3 := by
  cases v with
  | none => simp [badVis]
  | some y => simp only [badVis]; split_ifs <;> omega

theorem optDefLt_iff (o : Option ℚ) (t : ℚ) :
    optDefLt o t = true ↔ ∃ x, o = some x ∧ x < t := by
  cases o with
  | none => simp [optDefLt]
  | some a => simp [optDefLt]

theorem optDefLt_c500 (c : Option ℚ) : optDefLt c 500 = decide (3 ≤ badCeil c) := by
  cases c with
  | none => rfl
  | some x =>
    simp only [optDefLt, badCeil]
    split_ifs <;> simp_all

theorem optDefLt_c1000 (c : Option ℚ) : optDefLt c 1000 = decide (2 ≤ badCeil c) := by
  cases c with
  | none => rfl
  | some x =>
    simp only [optDefLt, badCeil]
    split_ifs with h1 h2 <;> simp_all <;> linarith

theorem optDefLt_c3000 (c : Option ℚ) : optDefLt c 3000 = decide (1 ≤ badCeil c) := by
  cases c with
  | none => rfl
  | some x =>
    simp only [optDefLt, badCeil]
    split_ifs with h1 h2 h3 <;> simp_all <;> linarith

theorem optDefLt_v1 (v : Option ℚ) : optDefLt v 1 = decide (3 ≤ badVis v) := by
  cases v with
  | none => rfl
  | some y =>
    simp only [optDefLt, badVis]
    split_ifs <;> simp_all

theorem optDefLt_v3 (v : Option ℚ) : optDefLt v 3 = decide (2 ≤ badVis v) := by
  cases v with
  | none => rfl
  | some y =>
    simp only [optDefLt, badVis]
    split_ifs with h1 h2 <;> simp_all <;> linarith

theorem optDefLt_v5 (v : Option ℚ) : optDefLt v 5 = decide (1 ≤ badVis v) := by
  cases v with
  | none => rfl
  | some y =>
    simp only [optDefLt, badVis]
    split_ifs with h1 h2 h3 <;> simp_all <;> linarith

/-- The severity of the classifier result is the worse of the two
per-input severities. -/
theorem catRank_determineFlightCategory (c v : Option ℚ) :
    catRank (determineFlightCategory c v) = max (badCeil c) (badVis v) := by
  have hm := badCeil_le_three c
  have hn := badVis_le_three v
  simp only [determineFlightCategory, optDefLt_c500, optDefLt_c1000, optDefLt_c3000,
    optDefLt_v1, optDefLt_v3, optDefLt_v5]
  generalize badCeil c = m at *
  generalize badVis v = n at *
  split_ifs <;> simp_all [catRank] <;> omega

/-- Severity from the ceiling is antitone: a lower ceiling is at least
as severe. -/
theorem badCeil_anti {x y : ℚ} (h : y ≤ x) : badCeil (some x) ≤ badCeil (some y) := by
  simp only [badCeil]
  split_ifs <;> first | omega | (exfalso; linarith)

/-- Severity from the visibility is antitone. -/
theorem badVis_anti {x y : ℚ} (h : y ≤ x) : badVis (some x) ≤ badVis (some y) := by
  simp only [badVis]
  split_ifs <;> first | omega | (exfalso; linarith)

/-- C1: the flight-category classifier, for every optional ceiling `c`
(feet) and optional visibility `v` (statute miles), returns `LIFR` iff
(`c` defined and `< 500`) or (`v` defined and `< 1`); otherwise `IFR`
iff (`c` defined and `< 1000`) or (`v` defined and `< 3`); otherwise
`MVFR` iff (`c` defined and `< 3000`) or (`v` defined and `< 5`);
otherwise `VFR`, including when both inputs are undefined.  All
comparisons being strict, the appended boundary cases show that inputs
exactly at the thresholds (500/1000/3000 ft, 1/3/5 SM) land in the
better category. -/
theorem determineFlightCategory_cases (c v : Option ℚ) :
    (determineFlightCategory c v = .LIFR ↔
      ((∃ x, c = some x ∧ x < 500) ∨ (∃ y, v = some y ∧ y < 1))) ∧
    (determineFlightCategory c v = .IFR ↔
      (¬((∃ x, c = some x ∧ x < 500) ∨ (∃ y, v = some y ∧ y < 1)) ∧
        ((∃ x, c = some x ∧ x < 1000) ∨ (∃ y, v = some y ∧ y < 3)))) ∧
    (determineFlightCategory c v = .MVFR ↔
      (¬((∃ x, c = some x ∧ x < 1000) ∨ (∃ y, v = some y ∧ y < 3)) ∧
        ((∃ x, c = some x ∧ x < 3000) ∨ (∃ y, v = some y ∧ y < 5)))) ∧
    (determineFlightCategory c v = .VFR ↔
      ¬((∃ x, c = some x ∧ x < 3000) ∨ (∃ y, v = some y ∧ y < 5))) ∧
    determineFlightCategory none none = .VFR ∧
    determineFlightCategory (some 500) (some 1) = .IFR ∧
    determineFlightCategory (some 1000) (some 3) = .MVFR ∧
    determineFlightCategory (some 3000) (some 5) = .VFR := by
  have hm := badCeil_le_three c
  have hn := badVis_le_three v
  refine ⟨?_, ?_, ?_, ?_, by decide, by decide, by decide, by decide⟩ <;>
  · simp only [← optDefLt_iff, optDefLt_c500, optDefLt_c1000, optDefLt_c3000,
      optDefLt_v1, optDefLt_v3, optDefLt_v5, determineFlightCategory]
    generalize badCeil c = m at *
    generalize badVis v = n at *
    split_ifs <;> simp_all <;> omega

/-- Witness for `determineFlightCategory_cases` at a concrete input. -/
theorem determineFlightCategory_cases_witness :
    determineFlightCategory (some 499) (some 10) = .LIFR :=
  (determineFlightCategory_cases (some 499) (some 10)).1.mpr
    (Or.inl ⟨499, rfl, by norm_num⟩)

/-- C3: the classifier is monotone.  With `catRank` ranking categories
by severity (`VFR = 0` best, `LIFR = 3` worst), decreasing a defined
ceiling with the visibility held fixed, or decreasing a defined
visibility with the ceiling held fixed, never lowers the rank, i.e.
never improves the returned category in the
`VFR > MVFR > IFR > LIFR` order. -/
theorem determineFlightCategory_monotone :
    (∀ (c c' : ℚ) (v : Option ℚ), c' ≤ c →
      catRank (determineFlightCategory (some c) v) ≤
        catRank (determineFlightCategory (some c') v)) ∧
    (∀ (v v' : ℚ) (c : Option ℚ), v' ≤ v →
      catRank (determineFlightCategory c (some v)) ≤
        catRank (determineFlightCategory c (some v'))) := by
  constructor
  · intro c c' v h
    rw [catRank_determineFlightCategory, catRank_determineFlightCategory]
    exact max_le_max (badCeil_anti h) le_rfl
  · intro v v' c h
    rw [catRank_determineFlightCategory, catRank_determineFlightCategory]
    exact max_le_max le_rfl (badVis_anti h)

/-- Witness for `determineFlightCategory_monotone` at a concrete
input. -/
theorem determineFlightCategory_monotone_witness :
    catRank (determineFlightCategory (some 3000) (some 10)) ≤
      catRank (determineFlightCategory (some 800) (some 10)) :=
  determineFlightCategory_monotone.1 3000 800 (some 10) (by norm_num)

/-- C2: the invariant "the embedded flightCategory equals what the
classifier computes from the ceiling of the observation itself (lowest BKN/OVC
layer of its parsed clouds) and parsed visibility" fails: for a record
whose clouds arrive under the `skyCondition` fallback key, the mapped
clouds field contains an OVC layer at 200 ft (classifier: LIFR), but
the embedded category is VFR, because `determineFlightCategory` reads
`data.clouds || []` without the `skyCondition` fallback that
`parseMetarResponse` itself applies. -/
theorem parseMetarResponse_flightCategory_mismatch :
    (parseMetarResponse skyConditionOnlyRecord).clouds =
      [{ type := "OVC", altitude := some (some 200) }] ∧
    ceilingOf (parseMetarResponse skyConditionOnlyRecord).clouds = some 200 ∧
    (parseMetarResponse skyConditionOnlyRecord).visibility = none ∧
    determineFlightCategory (ceilingOf (parseMetarResponse skyConditionOnlyRecord).clouds)
      (parseMetarResponse skyConditionOnlyRecord).visibility.join = .LIFR ∧
    (parseMetarResponse skyConditionOnlyRecord).flightCategory = .VFR := by
  decide

/-- C4 counterexample: `"abc+"` is a non-numeric string (its
`parseFloat` coercion is `NaN`), yet the `+`-suffix branch returns that
`NaN` bare — the result is `NaN`, a number, not absent. -/
theorem parseVisibility_nan_counterexample :
    jsParseFloat "abc+" = none ∧
    parseVisibility (.str "abc+") = some none ∧
    parseVisibility (.str "abc+") ≠ none := by
  decide

/-- C4 (amended): `normalizeVisibility("10+") = 10`,
`normalizeVisibility("P6SM") = 6`, `normalizeVisibility("") = absent`;
and every non-numeric or empty string that does not match the
`+`-suffix or `P…SM` special forms normalizes to absent (the function
is total, so it never raises; a special-form string whose stripped core
is non-numeric instead yields `NaN`, per the counterexample). -/
theorem parseVisibility_spec :
    parseVisibility (.str "10+") = some (some 10) ∧
    parseVisibility (.str "P6SM") = some (some 6) ∧
    parseVisibility (.str "") = none ∧
    ∀ s : String, strEndsWith s "+" = false →
      (strStartsWith s "P" && strEndsWith s "SM") = false →
      jsParseFloat s = none →
      parseVisibility (.str s) = none := by
  refine ⟨by decide, by decide, by decide, ?_⟩
  intro s h1 h2 h3
  by_cases hs : s = ""
  · simp [hs, parseVisibility]
  · simp [parseVisibility, hs, h1, h2, h3]

/-- Witness for `parseVisibility_spec` at a concrete input. -/
theorem parseVisibility_spec_witness :
    parseVisibility (.str "xyz") = none :=
  parseVisibility_spec.2.2.2 "xyz" (by decide) (by decide) (by decide)

/-- C10 counterexample: `"0+"` is a string whose numeric coercion (the
very `parseFloat` the code uses, which stops at the plus) is `0`, yet
`normalizeVisibility` returns `0`, not absent, via the `+`-suffix
branch. -/
theorem parseVisibility_zero_counterexample :
    jsParseFloat "0+" = some 0 ∧
    parseVisibility (.str "0+") = some (some 0) ∧
    parseVisibility (.str "0+") ≠ none := by
  decide

/-- C10 (amended): visibility zero in plain form is absent: the numeric
input `0` and the string `"0"` normalize to absent, as does every
string outside the `+`/`P…SM` special forms whose numeric coercion is
`0`; and whenever the parsed visibility is absent the whole parsed
observation — visibility field and embedded flight category included —
is identical to that of the same record with visibility missing, so a
zero visibility so reported is indistinguishable from a missing one in
every downstream consumer. -/
theorem parseVisibility_zero_absent :
    parseVisibility (.num (some 0)) = none ∧
    parseVisibility (.str "0") = none ∧
    (∀ s : String, strEndsWith s "+" = false →
      (strStartsWith s "P" && strEndsWith s "SM") = false →
      jsParseFloat s = some 0 →
      parseVisibility (.str s) = none) ∧
    (∀ d : MetarRecord, parseVisibility d.visib = none →
      parseMetarResponse d = parseMetarResponse { d with visib := .undef }) := by
  refine ⟨by decide, by decide, ?_, ?_⟩
  · intro s h1 h2 h3
    by_cases hs : s = ""
    · simp [hs, parseVisibility]
    · simp [parseVisibility, hs, h1, h2, h3]
  · intro d h
    have h0 : parseVisibility JSVal.undef = none := rfl
    simp only [parseMetarResponse, svcDetermineFlightCategory, h, h0]

/-- Witness for `parseVisibility_zero_absent` at a concrete input. -/
theorem parseVisibility_zero_absent_witness :
    parseVisibility (.str "0.0") = none :=
  parseVisibility_zero_absent.2.2.1 "0.0" (by decide) (by decide) (by decide)

/-- C6 counterexample: looking up `"KDEN"` in a non-empty reply that
contains no matching record does not fail with STATION_NOT_FOUND; the
information of the first record (here, icao `"KLAS"`) is returned. -/
theorem getStationInfo_no_match_counterexample :
    klasOnlyRecord.icaoId ≠ some "KDEN" ∧
    getStationInfo [klasOnlyRecord] "KDEN" =
      .ok { icao := "KLAS", name := "KDEN", latitude := none,
            longitude := none, elevation := none } :=
  ⟨by decide, rfl⟩

/-- C6 (amended): the lookup fails with STATION_NOT_FOUND exactly when
the result sequence is empty; a non-empty sequence yields the first
station information of the first record, with no check that it matches the
requested station identifier. -/
theorem getStationInfo_spec :
    (∀ (records : List StationRecord) (station : String),
      (∃ e, getStationInfo records station = .error e) ↔ records = []) ∧
    (∀ station : String, getStationInfo [] station =
      .error { code := "STATION_NOT_FOUND",
               message := "Station " ++ jsCleanStation station ++ " not found" }) ∧
    (∀ (r : StationRecord) (rs : List StationRecord) (station : String),
      getStationInfo (r :: rs) station = .ok (stationInfoOf r (jsCleanStation station))) := by
  refine ⟨?_, fun station => rfl, fun r rs station => rfl⟩
  intro records station
  cases records with
  | nil => simp [getStationInfo]
  | cons r rs => simp [getStationInfo]

/-- Witness for `getStationInfo_spec` at a concrete input. -/
theorem getStationInfo_spec_witness :
    (∃ e, getStationInfo [] "KDEN" = .error e) ↔ ([] : List StationRecord) = [] :=
  getStationInfo_spec.1 [] "KDEN"

/-- C7 counterexample: an icing report containing both `TRACE` and
`LIGHT` classifies as `TRACE` — the better of the two — not `LIGHT` as
the worst-first reading claims. -/
theorem parseIcingIntensity_counterexample :
    jsIncludes "TRACE LIGHT" "TRACE" = true ∧
    jsIncludes "TRACE LIGHT" "LIGHT" = true ∧
    parseIcingIntensity "TRACE LIGHT" = .TRACE ∧
    parseIcingIntensity "TRACE LIGHT" ≠ .LIGHT := by
  decide

/-- C7 (amended): both normalizers do a case-insensitive substring
match with first-match-wins.  Turbulence checks EXTREME, SEVERE,
MODERATE in that (worst-to-best) order with LIGHT the unchecked
default.  Icing, however, checks SEVERE, MODERATE, TRACE with LIGHT the
unchecked default, so a string containing TRACE but neither SEVERE nor
MODERATE classifies as TRACE even when it also contains LIGHT (LIGHT,
though worse than TRACE, is never matched). -/
theorem parseIntensity_scan_order :
    (∀ s : String, jsIncludes (jsToUpper s) "EXTREME" = true →
      parseTurbulenceIntensity s = .EXTREME) ∧
    (∀ s : String, jsIncludes (jsToUpper s) "SEVERE" = true →
      jsIncludes (jsToUpper s) "EXTREME" = false →
      parseTurbulenceIntensity s = .SEVERE) ∧
    (∀ s : String, jsIncludes (jsToUpper s) "EXTREME" = false →
      jsIncludes (jsToUpper s) "SEVERE" = false →
      jsIncludes (jsToUpper s) "MODERATE" = false →
      parseTurbulenceIntensity s = .LIGHT) ∧
    (∀ s : String, jsIncludes (jsToUpper s) "TRACE" = true →
      jsIncludes (jsToUpper s) "SEVERE" = false →
      jsIncludes (jsToUpper s) "MODERATE" = false →
      parseIcingIntensity s = .TRACE) ∧
    parseTurbulenceIntensity "severe and light chop" = .SEVERE ∧
    parseIcingIntensity "trace with light rime" = .TRACE := by
  refine ⟨?_, ?_, ?_, ?_, by decide, by decide⟩
  · intro s h1; simp [parseTurbulenceIntensity, h1]
  · intro s h1 h2; simp [parseTurbulenceIntensity, h1, h2]
  · intro s h1 h2 h3; simp [parseTurbulenceIntensity, h1, h2, h3]
  · intro s h1 h2 h3; simp [parseIcingIntensity, h1, h2, h3]

/-- Witness for `parseIntensity_scan_order` at a concrete input. -/
theorem parseIntensity_scan_order_witness :
    parseTurbulenceIntensity "EXTREME CAT" = .EXTREME :=
  parseIntensity_scan_order.1 "EXTREME CAT" (by decide)

/-- C8 counterexample: an unrecognized non-empty cover (`"OVX"`) passes
through verbatim — outside the six-value enumeration, not defaulted to
CLR — and a truthy base whose numeric coercion fails yields `NaN`
(`some none`), not absent. -/
theorem parseClouds_counterexample :
    parseClouds [{ cover := some "OVX", skyCover := none, base := .str "abc" }] =
      [{ type := "OVX", altitude := some none }] ∧
    (["FEW", "SCT", "BKN", "OVC", "CLR", "SKC"].contains "OVX") = false ∧
    jsParseInt "abc" = none := by
  decide

/-- C8 (amended): the cloud-layer parser maps its input entry-wise
(same length, same order, no deduplication or sorting); per entry the
cover is the first truthy of `cover`/`skyCover` and defaults to `CLR`
only when both are missing or empty (an unrecognized non-empty cover is
kept verbatim), and the base altitude is absent exactly when the raw
base is falsy (missing, `0`, `""` or `NaN`) — a truthy base with failed
integer coercion gives `NaN` instead. -/
theorem parseClouds_spec :
    (∀ cs : List CloudRecord, parseClouds cs = cs.map cloudLayerOfRecord) ∧
    (∀ cs : List CloudRecord, (parseClouds cs).length = cs.length) ∧
    (∀ c : CloudRecord, jsTruthy c.base = false →
      (cloudLayerOfRecord c).altitude = none) ∧
    (∀ c : CloudRecord, jsTruthy c.base = true →
      (cloudLayerOfRecord c).altitude =
        some ((jsParseIntVal c.base).map (fun n => (n : ℚ)))) ∧
    (∀ c : CloudRecord, (c.cover = none ∨ c.cover = some "") →
      (c.skyCover = none ∨ c.skyCover = some "") →
      (cloudLayerOfRecord c).type = "CLR") := by
  refine ⟨fun cs => rfl, fun cs => by simp [parseClouds], ?_, ?_, ?_⟩
  · intro c h; simp [cloudLayerOfRecord, h]
  · intro c h; simp [cloudLayerOfRecord, h]
  · intro c h1 h2
    rcases h1 with h1 | h1 <;> rcases h2 with h2 | h2 <;>
      simp [cloudLayerOfRecord, jsOrStr, h1, h2]

/-- Witness for `parseClouds_spec` at a concrete input. -/
theorem parseClouds_spec_witness :
    (cloudLayerOfRecord { cover := none, skyCover := none, base := .undef }).type = "CLR" :=
  parseClouds_spec.2.2.2.2 { cover := none, skyCover := none, base := .undef }
    (Or.inl rfl) (Or.inl rfl)

/-- C9 counterexample: a line whose first whitespace-delimited token is
the matching `"KDEN"` yields no record, because the code splits on
single space characters only and the tab keeps the token attached. -/
theorem segmentRawObservationText_counterexample :
    firstWhitespaceToken "KDEN\t121652Z" = "KDEN" ∧
    isFourUpper "KDEN" = true ∧
    segmentRawObservationText "KDEN\t121652Z" = [] := by
  decide

theorem foldl_step_filterMap (f : String → Option RawMetar)
    (B : List RawMetar → String → List RawMetar)
    (hB : ∀ acc l, B acc l = match f l with | some r => acc ++ [r] | none => acc)
    (lines : List String) (acc : List RawMetar) :
    lines.foldl B acc = acc ++ lines.filterMap f := by
  induction lines generalizing acc with
  | nil => simp
  | cons l ls ih =>
    rw [List.foldl_cons, hB, List.filterMap_cons]
    cases hf : f l with
    | none => simp only [hf]; rw [ih]
    | some r => simp only [hf]; rw [ih]; simp

theorem filterMap_filter_eq (P : String → Bool) (f : String → Option RawMetar)
    (hf : ∀ l, P l = false → f l = none) (lines : List String) :
    (lines.filter P).filterMap f = lines.filterMap f := by
  induction lines with
  | nil => rfl
  | cons l ls ih =>
    by_cases hP : P l = true
    · cases hfl : f l with
      | none => simp [List.filter_cons, hP, hfl, ih]
      | some r => simp [List.filter_cons, hP, hfl, ih]
    · have hP' : P l = false := by revert hP; cases P l <;> simp
      simp [List.filter_cons, hP', hf l hP', ih]

theorem segLineStep_eq (acc : List RawMetar) (l : String) :
    (if jsTrim l != "" then
      if isFourUpper ((jsSplitChar ' ' (jsTrim l)).headD "") then
        acc ++ [{ raw := jsTrim l, station := (jsSplitChar ' ' (jsTrim l)).headD "" }]
      else acc
    else acc) = match lineRecord l with | some r => acc ++ [r] | none => acc := by
  by_cases h1 : jsTrim l = ""
  · simp [lineRecord, h1]
  · by_cases h2 : isFourUpper ((jsSplitChar ' ' (jsTrim l)).head?.getD "") = true
    · simp [lineRecord, h1, h2]
    · simp [lineRecord, h1, h2]

theorem lineRecord_none_of_blank (l : String) :
    (fun line => jsTrim line != "") l = false → lineRecord l = none := by
  intro h
  have h1 : jsTrim l = "" := by simpa using h
  simp [lineRecord, h1]

/-- C9 (amended): every non-blank line whose first space-delimited part
(single-space split of the trimmed line, as the code does — a
whitespace-delimited reading fails on the tab counterexample) matches
`/^[A-Z]{4}$/` yields exactly one record, with that part as station and
the trimmed line as raw; all other lines yield nothing, in line order;
and the two-line example yields exactly the KDEN and KLAS records. -/
theorem segmentRawObservationText_spec :
    (∀ text : String,
      segmentRawObservationText text = (jsSplitChar '\n' text).filterMap lineRecord) ∧
    segmentRawObservationText "KDEN 121652Z ...\nKLAS 121653Z ...\n" =
      [{ raw := "KDEN 121652Z ...", station := "KDEN" },
       { raw := "KLAS 121653Z ...", station := "KLAS" }] := by
  constructor
  · intro text
    show ((jsSplitChar '\n' text).filter (fun line => jsTrim line != "")).foldl
        (fun results line =>
          if jsTrim line != "" then
            if isFourUpper ((jsSplitChar ' ' (jsTrim line)).headD "") then
              results ++ [{ raw := jsTrim line, station := (jsSplitChar ' ' (jsTrim line)).headD "" }]
            else results
          else results) [] = (jsSplitChar '\n' text).filterMap lineRecord
    rw [foldl_step_filterMap lineRecord _ (fun acc l => segLineStep_eq acc l),
      List.nil_append]
    exact filterMap_filter_eq _ lineRecord lineRecord_none_of_blank _
  · set_option maxRecDepth 4000 in decide

/-- C5 counterexample: the decoder does not fail on the empty string
(there is no `DECODE_ERROR` path in the code at all); it returns the
bare header. -/
theorem decodeMetar_empty_counterexample :
    decodeMetar "" = "Decoded METAR:\n\n" := by
  decide

set_option maxRecDepth 40000 in
/-- C5 (amended): `decodeMetar` never fails — it is a total,
throw-free function — and for every input, the empty string included,
it returns a prose string extending the fixed decoder header.  The
second conjunct exercises the full pipeline on the worked example
from the specification. -/
theorem decodeMetar_total :
    (∀ s : String, ∃ t : String, decodeMetar s = "Decoded METAR:\n\n" ++ t) ∧
    decodeMetar "METAR KDEN 121652Z 27015G25KT 10SM FEW050 22/10 A2992 RMK AO2" =
      "Decoded METAR:\n\nType: Routine observation\nStation: KDEN\n" ++
        "Observation Time: Day 12, 16:52 UTC\n" ++
        "Wind: 270° at 15 knots gusting to 25 knots\nVisibility: 10SM\n" ++
        "Clouds: Few at 5000 ft\nTemperature: 22°C, Dewpoint: 10°C\n" ++
        "Altimeter: 29.92 inHg\nRemarks: AO2\n" :=
  ⟨fun s => ⟨decodeMetarBody s, rfl⟩, by decide⟩

end AvWx
